import Mathlib

/-!
Verification development for the e-learning portal diagnostic tool
(`src/elearning_diagnostic.py`).

The Python program is shallowly embedded: the mutable `self.report` dict
becomes an explicit `Report` value threaded through the checks; every
external surface the checks read (filesystem, dynamic module load, the
`pip list` subprocess, SQLite stores) is abstracted into an `Env` record
of oracles; Python exceptions raised by a collaborator become `Except`
values of the corresponding oracle.  String operations (`in`, `split`,
`strip`, `lower`, `count`, `startswith`, `endswith`) are modelled by
executable functions over `String.data` so that all definitions evaluate
inside the kernel.  Wall-clock timestamps (`datetime.now().isoformat()`)
are abstracted to a single `Nat` clock value `Env.now`.
-/

set_option maxRecDepth 8000

/-! ## String primitives modelling Python `str` operations -/

/-- Model of Python `needle in hay` (substring containment) on char lists. -/
def occursIn (needle : List Char) : List Char → Bool
  | [] => needle.isEmpty
  | c :: t => needle.isPrefixOf (c :: t) || occursIn needle t

/-- Model of Python `needle in hay` for strings. -/
def containsSubstr (needle hay : String) : Bool := occursIn needle.data hay.data

/-- Model of Python `s.lower()` (ASCII case folding). -/
def lowerStr (s : String) : String := ⟨s.data.map Char.toLower⟩

/-- Model of Python `s.strip()`. -/
def trimStr (s : String) : String :=
  ⟨((s.data.dropWhile Char.isWhitespace).reverse.dropWhile Char.isWhitespace).reverse⟩

/-- Everything before the first occurrence of `sep` (the whole list when
`sep` does not occur): model of Python `s.split(sep)[0]`. -/
def breakBefore (sep : List Char) : List Char → List Char
  | [] => []
  | c :: t => if sep ≠ [] ∧ sep.isPrefixOf (c :: t) then [] else c :: breakBefore sep t

/-- Model of Python `s.split(sep)[0]` for strings. -/
def splitHead (sep s : String) : String := ⟨breakBefore sep.data s.data⟩

/-- Model of Python `s.split(sep)` for a one-character separator. -/
def splitOnChar (sep : Char) : List Char → List (List Char)
  | [] => [[]]
  | c :: t =>
    if c = sep then [] :: splitOnChar sep t
    else
      match splitOnChar sep t with
      | [] => [[c]]
      | h :: r => (c :: h) :: r

/-- Model of Python splitting a string at newline characters. -/
def splitLines (s : String) : List String := (splitOnChar '\n' s.data).map fun l => ⟨l⟩

/-- Non-overlapping occurrence count, skipping `skip` chars after a match:
auxiliary for Python `s.count(needle)`. -/
def countOccsAux (needle : List Char) : List Char → Nat → Nat
  | [], _ => 0
  | _ :: t, skip + 1 => countOccsAux needle t skip
  | l@(_ :: t), 0 =>
    if needle ≠ [] ∧ needle.isPrefixOf l then 1 + countOccsAux needle t (needle.length - 1)
    else countOccsAux needle t 0

/-- Model of Python `s.count(needle)` (non-overlapping). -/
def countSubstr (needle s : String) : Nat := countOccsAux needle.data s.data 0

/-- Model of Python `s.startswith(p)`. -/
def startsWithStr (p s : String) : Bool := p.data.isPrefixOf s.data

/-- Model of Python `s.endswith(p)`. -/
def endsWithStr (p s : String) : Bool := p.data.reverse.isPrefixOf s.data.reverse

/-- Last path component: model of Python `Path(p).name`. -/
def baseName (p : String) : String :=
  (((splitOnChar '/' p.data).map fun l => (⟨l⟩ : String)).getLastD p)

/-! ## Data model (section 3 of the design): the report aggregate -/

/-- One entry appended by `log_issue`, carrying the four keys category,
message, severity and timestamp (timestamps abstracted to a `Nat`). -/
structure Finding where
  category : String
  message : String
  severity : String
  timestamp : Nat
deriving Repr, DecidableEq

/-- Size slot of a file-structure record: a byte count for files, the
literal string marker for directories. -/
inductive FSize where
  | bytes (n : Nat)
  | directoryMarker
deriving Repr, DecidableEq

/-- One value of the file_structure map of the report. -/
structure FileRecord where
  fileExists : Bool
  description : Option String := none
  size : Option FSize := none
  ftype : Option String := none
deriving Repr, DecidableEq

/-- Facts extracted by textual analysis of the entry file, stored under
the app_py key of the configurations map. -/
structure AppPyFacts where
  flask_imports : Bool
  database_config : Bool
  secret_key : Bool
  debug_mode : Bool
  port_config : Bool
  routes_count : Nat
  blueprint_usage : Bool
  error_handling : Bool
deriving Repr, DecidableEq

/-- Facts extracted from a successfully imported Flask app instance,
stored under the flask_config key of the configurations map. -/
structure FlaskFacts where
  secret_key_configured : Bool
  database_uri : String
  debug : Bool
  registered_routes : Nat
  blueprints : List String
deriving Repr, DecidableEq

/-- Values stored in the configurations map: the five keys the source
writes (`app_py`, `flask_config`, `templates`, `static_files`, `wsgi`). -/
inductive ConfigVal where
  | appPy (facts : AppPyFacts)
  | flaskConfig (facts : FlaskFacts)
  | templates (directory_exists : Bool) (template_count : Nat) (template_files : List String)
  | staticFiles (directory_exists : Bool) (css_count js_count image_count : Nat)
      (css_files js_files image_files : List String)
  | wsgi (fileFound imports_app has_application : Bool)
deriving Repr, DecidableEq

/-- One value of the database_status map of the report. -/
structure DbStatus where
  dbType : String
  accessible : Bool
  tables : Option (List (String × Nat)) := none
  error : Option String := none
deriving Repr, DecidableEq

/-- The two keys the source writes in the dependencies map. -/
structure DepsInfo where
  requirements_file : Option (List String) := none
  missing_packages : Option (List String) := none
deriving Repr, DecidableEq

/-- One remediation entry produced by `generate_solutions`. -/
structure Solution where
  issue : String
  solution : String
  code_example : Option String := none
  command : Option String := none
deriving Repr, DecidableEq

/-- The report aggregate built in `ELearningDiagnostic.__init__` and
mutated in place by the checks.  Python dict insertion/update is modelled
by appending to an association list (later entries shadow earlier ones);
none of the checks reads these maps back, so shadowing is unobserved. -/
structure Report where
  timestamp : Nat
  base_path : String
  issues : List Finding
  warnings : List Finding
  info : List Finding
  file_structure : List (String × FileRecord)
  configurations : List (String × ConfigVal)
  database_status : List (String × DbStatus)
  dependencies : DepsInfo
  server_status : List (String × ConfigVal)
  solutions : List Solution
deriving Repr, DecidableEq

/-- A report with no findings and empty maps, as built by `__init__`
(with the clock and base path zeroed). -/
def emptyReport : Report :=
  { timestamp := 0, base_path := "", issues := [], warnings := [], info := []
    file_structure := [], configurations := [], database_status := []
    dependencies := {}, server_status := [], solutions := [] }

/-! ## The external environment: oracles for every collaborator surface -/

/-- One file met by the `os.walk` pass of `analyze_file_structure`:
its path relative to the base (the dict key), its basename (tested by the
hidden-file and `.pyc` filters) and its size. -/
structure WalkEntry where
  relPath : String
  fileName : String
  size : Nat
deriving Repr, DecidableEq

/-- Outcome of the dynamic-import attempt in `analyze_app_imports`:
an exception in the `importlib` setup (caught by the outer handler), a
`None` spec or loader (the code then does nothing), an `ImportError` or
other exception raised while executing the module, a loaded module with
no `app` attribute, or a loaded module exposing a Flask app. -/
inductive ImportOutcome where
  | setupError (msg : String)
  | noSpec
  | importError (msg : String)
  | execError (msg : String)
  | noAppAttr
  | ok (facts : FlaskFacts)
deriving Repr, DecidableEq

/-- The external world one diagnostic run observes.  Paths are the strings
the source builds relative to `self.base_path`. -/
structure Env where
  basePath : String := "."
  now : Nat := 0
  pathExists : String → Bool := fun _ => false
  isFile : String → Bool := fun _ => false
  fileSize : String → Nat := fun _ => 0
  readFile : String → Except String String := fun _ => .error "No such file or directory"
  walkEntries : List WalkEntry := []
  importOutcome : ImportOutcome := .noSpec
  pipList : Except String String := .error "pip failed"
  dbFiles : List String := []
  openDb : String → Except String (List (String × Nat)) := fun _ => .error "unable to open database file"
  templateFiles : List String := []

/-! ## The Finding Store: `log_issue` -/

/-- Embedding of `ELearningDiagnostic.log_issue`: appends one entry to the
sequence selected by `severity` (error to issues, warning to warnings,
anything else to info). -/
def logIssue (t : Nat) (r : Report) (category message severity : String) : Report :=
  let entry : Finding := ⟨category, message, severity, t⟩
  if severity = "error" then { r with issues := r.issues ++ [entry] }
  else if severity = "warning" then { r with warnings := r.warnings ++ [entry] }
  else { r with info := r.info ++ [entry] }

/-- Total number of findings held by a report across the three sequences. -/
def totalFindings (r : Report) : Nat :=
  r.issues.length + r.warnings.length + r.info.length

/-- The arguments of one `log_issue` call (with its clock value). -/
structure LogCall where
  category : String
  message : String
  severity : String
  t : Nat
deriving Repr, DecidableEq

/-- One `log_issue` call applied to a report. -/
def applyCall (r : Report) (c : LogCall) : Report :=
  logIssue c.t r c.category c.message c.severity

/-- A sequence of `log_issue` calls applied in order. -/
def runLog (r : Report) (calls : List LogCall) : Report := calls.foldl applyCall r

/-! ## File-structure check: `analyze_file_structure` -/

/-- The `expected_files` table of `analyze_file_structure`. -/
def expectedFiles : List (String × String) :=
  [("app.py", "Main application file"),
   ("requirements.txt", "Python dependencies"),
   ("wsgi.py", "WSGI configuration"),
   ("templates/", "HTML templates directory"),
   ("static/", "Static files directory"),
   ("instance/", "Instance-specific files")]

/-- One iteration of the expected-files loop: record a `FileRecord` for a
present path, or a warning Finding plus an absent `FileRecord`. -/
def fsExpectedStep (env : Env) (acc : Report) (item : String × String) : Report :=
  let fp := item.1
  let desc := item.2
  if env.pathExists fp then
    { acc with file_structure := acc.file_structure ++
        [(fp, { fileExists := true, description := some desc,
                size := some (if env.isFile fp then .bytes (env.fileSize fp)
                              else .directoryMarker) })] }
  else
    let acc1 := logIssue env.now acc "file_structure" ("Missing " ++ desc ++ ": " ++ fp) "warning"
    { acc1 with file_structure := acc1.file_structure ++
        [(fp, { fileExists := false, description := some desc })] }

/-- One file of the `os.walk` pass: skipped when hidden or a compiled
artifact, otherwise recorded with its size. -/
def fsWalkStep (acc : Report) (e : WalkEntry) : Report :=
  if startsWithStr "." e.fileName || endsWithStr ".pyc" e.fileName then acc
  else
    { acc with file_structure := acc.file_structure ++
        [(e.relPath, { fileExists := true, size := some (.bytes e.size), ftype := some "file" })] }

/-- Embedding of `ELearningDiagnostic.analyze_file_structure`. -/
def analyzeFileStructure (env : Env) (r : Report) : Report :=
  env.walkEntries.foldl fsWalkStep (expectedFiles.foldl (fsExpectedStep env) r)

/-! ## Configuration check: `analyze_app_py` and `analyze_app_imports` -/

/-- The `config_info` dict computed by substring/pattern detection over
the raw text of `app.py`. -/
def appConfigInfo (content : String) : AppPyFacts :=
  { flask_imports := containsSubstr "from flask import" content
    database_config := containsSubstr "sqlite" (lowerStr content)
        || containsSubstr "mysql" (lowerStr content)
        || containsSubstr "postgresql" (lowerStr content)
    secret_key := containsSubstr "SECRET_KEY" content || containsSubstr "secret_key" content
    debug_mode := containsSubstr "debug=True" content
    port_config := containsSubstr "port=" content
    routes_count := countSubstr "@app.route" content
    blueprint_usage := containsSubstr "Blueprint" content
    error_handling := containsSubstr "@app.errorhandler" content }

/-- Embedding of `ELearningDiagnostic.analyze_app_imports`.  The state is
the report paired with `sys.path`; the source inserts the base path at the
front of `sys.path` first (this insertion cannot fail) and never removes
it, so every branch returns the extended path.  The outcome of the
`importlib` attempt is the `Env.importOutcome` oracle. -/
def analyzeAppImports (env : Env) (st : Report × List String) : Report × List String :=
  let r := st.1
  let sysPath := env.basePath :: st.2
  match env.importOutcome with
  | .setupError msg =>
      (logIssue env.now r "app_config" ("Could not analyze app imports: " ++ msg) "warning", sysPath)
  | .noSpec => (r, sysPath)
  | .importError msg =>
      (logIssue env.now r "app_config" ("Import error in app.py: " ++ msg) "error", sysPath)
  | .execError msg =>
      (logIssue env.now r "app_config" ("Error executing app.py: " ++ msg) "error", sysPath)
  | .noAppAttr =>
      (logIssue env.now r "app_config" "No \x27app\x27 instance found in app.py" "error", sysPath)
  | .ok facts =>
      let r1 := { r with configurations := r.configurations ++ [("flask_config", .flaskConfig facts)] }
      (logIssue env.now r1 "app_config" "Successfully imported Flask app" "info", sysPath)

/-- Embedding of `ELearningDiagnostic.analyze_app_py`.  When `app.py` is
absent one error Finding is recorded and the check returns; otherwise the
file is read (a read failure is caught and logged as an error), the
textual facts are recorded, the four policy rules fire, and the
dynamic-import sub-operation runs. -/
def analyzeAppPy (env : Env) (st : Report × List String) : Report × List String :=
  let r := st.1
  let sysPath := st.2
  if ¬ env.pathExists "app.py" then
    (logIssue env.now r "app_config" "app.py not found - this is critical!" "error", sysPath)
  else
    match env.readFile "app.py" with
    | .error e =>
        (logIssue env.now r "app_config" ("Error reading app.py: " ++ e) "error", sysPath)
    | .ok content =>
        let ci := appConfigInfo content
        let r1 := { r with configurations := r.configurations ++ [("app_py", .appPy ci)] }
        let r2 := if ¬ ci.flask_imports then
            logIssue env.now r1 "app_config" "Flask imports not found in app.py" "error"
          else r1
        let r3 := if ci.debug_mode then
            logIssue env.now r2 "app_config"
              "Debug mode is enabled - should be disabled in production" "warning"
          else r2
        let r4 := if ¬ ci.secret_key then
            logIssue env.now r3 "app_config"
              "No SECRET_KEY found - sessions won\x27t work properly" "error"
          else r3
        let r5 := if ci.routes_count = 0 then
            logIssue env.now r4 "app_config" "No routes found in app.py" "warning"
          else r4
        analyzeAppImports env (r5, sysPath)

/-! ## Dependency check: `analyze_requirements` -/

/-- Bare package name of one requirement line: truncate at the first of
the three version-pin separators (exact-equals, minimum, maximum), in the
order the source applies them, then strip whitespace. -/
def parsePackageName (req : String) : String :=
  trimStr (splitHead "<=" (splitHead ">=" (splitHead "==" req)))

/-- The `missing_packages` loop: for each non-empty, non-comment line,
the bare name is kept when it does not occur (case-insensitively) in the
installed-package listing. -/
def missingPackages (requirements : List String) (installed : String) : List String :=
  requirements.filterMap fun req =>
    if trimStr req ≠ "" ∧ ¬ startsWithStr "#" req then
      let packageName := parsePackageName req
      if ¬ containsSubstr (lowerStr packageName) (lowerStr installed) then some packageName
      else none
    else none

/-- Embedding of `ELearningDiagnostic.analyze_requirements`.  The
`pip list` subprocess is the `Env.pipList` oracle; its failure is caught
and downgraded to a warning Finding. -/
def analyzeRequirements (env : Env) (r : Report) : Report :=
  if ¬ env.pathExists "requirements.txt" then
    logIssue env.now r "dependencies" "requirements.txt not found" "warning"
  else
    match env.readFile "requirements.txt" with
    | .error e =>
        logIssue env.now r "dependencies" ("Error reading requirements.txt: " ++ e) "error"
    | .ok content =>
        let requirements := splitLines (trimStr content)
        let r1 := { r with dependencies :=
            { r.dependencies with requirements_file := some requirements } }
        match env.pipList with
        | .error e =>
            logIssue env.now r1 "dependencies" ("Could not check installed packages: " ++ e) "warning"
        | .ok installed =>
            let missing := missingPackages requirements installed
            let r2 := { r1 with dependencies :=
                { r1.dependencies with missing_packages := some missing } }
            if missing ≠ [] then
              logIssue env.now r2 "dependencies"
                ("Missing packages: " ++ String.intercalate ", " missing) "error"
            else
              logIssue env.now r2 "dependencies"
                "All required packages appear to be installed" "info"

/-! ## Database check: `analyze_database` -/

/-- The `database_status` value recorded for one `.db` file, determined by
the outcome of opening it and counting the rows of its tables. -/
def dbStatusFor (env : Env) (p : String) : DbStatus :=
  match env.openDb p with
  | .ok tables => { dbType := "SQLite", accessible := true, tables := some tables }
  | .error e => { dbType := "SQLite", accessible := false, error := some e }

/-- The single Finding recorded for one `.db` file. -/
def dbFindingFor (env : Env) (p : String) : Finding :=
  match env.openDb p with
  | .ok _ => ⟨"database", "Successfully connected to " ++ baseName p, "info", env.now⟩
  | .error e =>
      ⟨"database", "Could not access database " ++ baseName p ++ ": " ++ e, "error", env.now⟩

/-- One iteration of the loop of `analyze_database`: any failure while
opening or enumerating one store is caught there, so the loop always
continues with the next file. -/
def dbStep (env : Env) (acc : Report) (p : String) : Report :=
  match env.openDb p with
  | .ok tables =>
      let acc1 := { acc with database_status := acc.database_status ++
          [(p, { dbType := "SQLite", accessible := true, tables := some tables })] }
      logIssue env.now acc1 "database" ("Successfully connected to " ++ baseName p) "info"
  | .error e =>
      let acc1 := { acc with database_status := acc.database_status ++
          [(p, { dbType := "SQLite", accessible := false, error := some e })] }
      logIssue env.now acc1 "database"
        ("Could not access database " ++ baseName p ++ ": " ++ e) "error"

/-- Embedding of `ELearningDiagnostic.analyze_database`: every `.db` file
found under the base path is processed independently. -/
def analyzeDatabase (env : Env) (r : Report) : Report :=
  env.dbFiles.foldl (dbStep env) r

/-! ## Template check: `analyze_templates` -/

/-- One iteration of the per-file loop of `analyze_templates`: a warning
when the file contains neither template-engine delimiter, a warning when
it cannot be read. -/
def templateStep (env : Env) (acc : Report) (f : String) : Report :=
  match env.readFile f with
  | .ok content =>
      if ¬ containsSubstr "\x7b\x7b" content ∧ ¬ containsSubstr "\x7b%" content then
        logIssue env.now acc "templates" (baseName f ++ " might not be a Flask template") "warning"
      else acc
  | .error e =>
      logIssue env.now acc "templates" ("Error reading template " ++ baseName f ++ ": " ++ e) "warning"

/-- Embedding of `ELearningDiagnostic.analyze_templates`.  The recursive
`*.html` glob is the `Env.templateFiles` oracle. -/
def analyzeTemplates (env : Env) (r : Report) : Report :=
  if ¬ env.pathExists "templates" then
    logIssue env.now r "templates" "Templates directory not found" "error"
  else
    let templateFiles := env.templateFiles
    let r1 := { r with configurations := r.configurations ++
        [("templates", .templates true templateFiles.length templateFiles)] }
    let r2 := if templateFiles.length = 0 then
        logIssue env.now r1 "templates" "No HTML template files found" "warning"
      else
        logIssue env.now r1 "templates"
          ("Found " ++ toString templateFiles.length ++ " template files") "info"
    templateFiles.foldl (templateStep env) r2

/-! ## Solution derivation: `generate_solutions` -/

/-- First predicate of the rule table: an entry-file-missing message. -/
def predEntryFile (m : String) : Bool := containsSubstr "Missing" m && containsSubstr "app.py" m

/-- Second predicate of the rule table: a secret-key message. -/
def predSecretKey (m : String) : Bool := containsSubstr "SECRET_KEY" m

/-- Third predicate of the rule table: a missing-dependencies message. -/
def predMissingPackages (m : String) : Bool := containsSubstr "Missing packages" m

/-- Fourth predicate of the rule table: a missing-templates-directory message. -/
def predTemplatesDir (m : String) : Bool := containsSubstr "Templates directory not found" m

/-- How many of the four rule-table predicates hold on one message. -/
def predsHolding (m : String) : Nat :=
  (if predEntryFile m then 1 else 0) + (if predSecretKey m then 1 else 0)
    + (if predMissingPackages m then 1 else 0) + (if predTemplatesDir m then 1 else 0)

/-- The Solution appended by the entry-file rule. -/
def entryFileSolution (m : String) : Solution :=
  { issue := m
    solution := "Create app.py file with basic Flask application structure"
    code_example := some ("from flask import Flask\napp = Flask(__name__)\napp.config[\x27SECRET_KEY\x27] = \x27your-secret-key-here\x27\n\n@app.route(\x27/\x27)\ndef home():\n    return \x27Hello World!\x27\n\nif __name__ == \x27__main__\x27:\n    app.run(debug=True, host=\x270.0.0.0\x27, port=5000)") }

/-- The Solution appended by the secret-key rule. -/
def secretKeySolution (m : String) : Solution :=
  { issue := m
    solution := "Add SECRET_KEY to your Flask configuration"
    code_example := some "import os\napp.config[\x27SECRET_KEY\x27] = os.environ.get(\x27SECRET_KEY\x27) or \x27your-secret-key-here\x27" }

/-- The Solution appended by the missing-dependencies rule. -/
def missingPackagesSolution (m : String) : Solution :=
  { issue := m
    solution := "Install missing packages using pip"
    command := some "pip install -r requirements.txt" }

/-- The Solution appended by the missing-templates-directory rule. -/
def templatesDirSolution (m : String) : Solution :=
  { issue := m
    solution := "Create templates directory and basic templates"
    command := some "mkdir templates && touch templates/base.html templates/index.html" }

/-- The if/elif chain of `generate_solutions` applied to the message of
one error Finding: the first matching predicate wins. -/
def solutionForMessage (m : String) : Option Solution :=
  if predEntryFile m then some (entryFileSolution m)
  else if predSecretKey m then some (secretKeySolution m)
  else if predMissingPackages m then some (missingPackagesSolution m)
  else if predTemplatesDir m then some (templatesDirSolution m)
  else none

/-- Embedding of `ELearningDiagnostic.generate_solutions`: iterates the
error-severity Findings in recorded order and stores the derived
Solutions. -/
def generateSolutions (r : Report) : Report :=
  { r with solutions := r.issues.filterMap fun i => solutionForMessage i.message }

/-! ## Orchestrator: `run_full_diagnostic`

The body of the `try` block is a fixed sequence of steps, each of which
mutates the shared report and may raise an uncaught Python exception (or a
`KeyboardInterrupt`).  A step is modelled as a function returning the
mutations it performed before (possibly) failing, together with the
escaped failure, if any; the two `except` arms both return `self.report`,
i.e. the mutations accumulated so far. -/

/-- A failure escaping one step of the diagnostic sequence: either the
interrupt signal or any other uncaught exception. -/
inductive CheckFailure where
  | interrupt
  | exc (msg : String)
deriving Repr, DecidableEq

/-- One step of the diagnostic sequence: the report it leaves behind and
the failure that escaped it, if any. -/
def Check : Type := Report → Report × Option CheckFailure

/-- Uncaught-exception semantics of the sequence inside the `try` block:
steps run in order until one fails. -/
def runChecks : List Check → Report → Report × Option CheckFailure
  | [], r => (r, none)
  | c :: cs, r =>
    match c r with
    | (r1, none) => runChecks cs r1
    | (r1, some f) => (r1, some f)

/-- Embedding of `ELearningDiagnostic.run_full_diagnostic`: the sequence
runs inside a single failure boundary whose both arms (interrupt, other
exception) return the report accumulated so far. -/
def runFullDiagnostic (checks : List Check) (r : Report) : Report :=
  (runChecks checks r).1

/-! ## Concrete runs used to instantiate the theorems -/

/-- A first diagnostic step that records one error and succeeds. -/
def c2GoodCheck : Check :=
  fun r => (logIssue 0 r "app_config" "app.py not found - this is critical!" "error", none)

/-- A step that records one warning and is then interrupted. -/
def c2BadCheck : Check :=
  fun r => (logIssue 1 r "dependencies" "requirements.txt not found" "warning", some .interrupt)

/-- A step after the failing one (never reached). -/
def c2RestCheck : Check :=
  fun r => (logIssue 2 r "templates" "Templates directory not found" "error", none)

/-- Report state after the successful first step. -/
def c2R1 : Report := logIssue 0 emptyReport "app_config" "app.py not found - this is critical!" "error"

/-- Report state at the moment of the interrupt. -/
def c2R2 : Report := logIssue 1 c2R1 "dependencies" "requirements.txt not found" "warning"

/-- A report whose only error Finding has a message containing the
substring Missing packages: foo, bar but also the substring app.py (a
requirements line can name a package app.py). -/
def c3CexReport : Report :=
  { emptyReport with issues := [⟨"dependencies", "Missing packages: foo, bar, app.py", "error", 0⟩] }

/-- A project directory where `requirements.txt` lists `flask==2.0.0` and
the installed-package listing contains `Flask`. -/
def envC5flask : Env :=
  { pathExists := fun p => p == "requirements.txt"
    readFile := fun _ => Except.ok "flask==2.0.0"
    pipList := Except.ok "Package    Version\n---------- -------\nFlask      2.0.0" }

/-- A project directory where `requirements.txt` lists
`nonexistentpkg123`, which occurs nowhere in the listing. -/
def envC5missing : Env :=
  { pathExists := fun p => p == "requirements.txt"
    readFile := fun _ => Except.ok "nonexistentpkg123"
    pipList := Except.ok "Package    Version\n---------- -------\nFlask      2.0.0" }

/-- A base directory with nothing in it: `app.py` is absent. -/
def envC6 : Env := { basePath := "/srv/elearning" }

/-- A directory containing one SQLite store with tables `users` (3 rows)
and `courses` (0 rows). -/
def envC7 : Env :=
  { dbFiles := ["instance/app.db"]
    openDb := fun _ => Except.ok [("users", 3), ("courses", 0)] }

/-- A templates directory with one real template and one file without
template markers. -/
def envC8 : Env :=
  { pathExists := fun p => p == "templates"
    templateFiles := ["templates/index.html", "templates/plain.html"]
    readFile := fun f =>
      if f == "templates/index.html" then Except.ok "<h1>\x7b\x7b name \x7d\x7d</h1>"
      else Except.ok "<h1>hello</h1>" }

/-- A base directory without a templates directory. -/
def envC8absent : Env := { basePath := "/srv/other" }

/-- A run whose dynamic-import attempt succeeds. -/
def envC9 : Env :=
  { basePath := "/home/pi/elearning"
    importOutcome := .ok ⟨true, "sqlite:///elearning.db", false, 12, []⟩ }

/-! ## Helper lemmas about `log_issue` -/

theorem totalFindings_logIssue (t : Nat) (r : Report) (cat msg sev : String) :
    totalFindings (logIssue t r cat msg sev) = totalFindings r + 1 := by
  simp only [logIssue, totalFindings]
  split
  · simp only [List.length_append, List.length_cons, List.length_nil]; omega
  · split
    · simp only [List.length_append, List.length_cons, List.length_nil]; omega
    · simp only [List.length_append, List.length_cons, List.length_nil]; omega

theorem totalFindings_runLog (calls : List LogCall) : ∀ r : Report,
    totalFindings (runLog r calls) = totalFindings r + calls.length := by
  induction calls with
  | nil => intro r; simp [runLog]
  | cons c cs ih =>
    intro r
    have h1 : runLog r (c :: cs) = runLog (applyCall r c) cs := by
      simp [runLog]
    rw [h1, ih (applyCall r c), applyCall, totalFindings_logIssue]
    simp [List.length_cons]
    omega

theorem logIssue_mem_warnings (t : Nat) (r : Report) (cat msg sev : String)
    (w : Finding) (h : w ∈ r.warnings) : w ∈ (logIssue t r cat msg sev).warnings := by
  simp only [logIssue]
  split
  · exact h
  · split
    · exact List.mem_append_left _ h
    · exact h

theorem logIssue_file_structure (t : Nat) (r : Report) (cat msg sev : String) :
    (logIssue t r cat msg sev).file_structure = r.file_structure := by
  simp only [logIssue]
  split
  · rfl
  · split <;> rfl

theorem logIssue_configurations (t : Nat) (r : Report) (cat msg sev : String) :
    (logIssue t r cat msg sev).configurations = r.configurations := by
  simp only [logIssue]
  split
  · rfl
  · split <;> rfl

theorem logIssue_database_status (t : Nat) (r : Report) (cat msg sev : String) :
    (logIssue t r cat msg sev).database_status = r.database_status := by
  simp only [logIssue]
  split
  · rfl
  · split <;> rfl

theorem logIssue_dependencies (t : Nat) (r : Report) (cat msg sev : String) :
    (logIssue t r cat msg sev).dependencies = r.dependencies := by
  simp only [logIssue]
  split
  · rfl
  · split <;> rfl

/-! ## Claim C1 -/

/-- C1: the total number of Findings in the report equals the number of
`log_issue` calls made, and each call appends its Finding to exactly the
sequence determined by its severity (error to issues, warning to
warnings, otherwise info), leaving the other two sequences untouched. -/
theorem claim_C1 (r : Report) (calls : List LogCall) :
    totalFindings (runLog r calls) = totalFindings r + calls.length
    ∧ ∀ (t : Nat) (cat msg sev : String),
      (sev = "error" →
        (logIssue t r cat msg sev).issues = r.issues ++ [⟨cat, msg, sev, t⟩]
        ∧ (logIssue t r cat msg sev).warnings = r.warnings
        ∧ (logIssue t r cat msg sev).info = r.info)
      ∧ (sev ≠ "error" → sev = "warning" →
        (logIssue t r cat msg sev).issues = r.issues
        ∧ (logIssue t r cat msg sev).warnings = r.warnings ++ [⟨cat, msg, sev, t⟩]
        ∧ (logIssue t r cat msg sev).info = r.info)
      ∧ (sev ≠ "error" → sev ≠ "warning" →
        (logIssue t r cat msg sev).issues = r.issues
        ∧ (logIssue t r cat msg sev).warnings = r.warnings
        ∧ (logIssue t r cat msg sev).info = r.info ++ [⟨cat, msg, sev, t⟩]) := by
  refine ⟨totalFindings_runLog calls r, ?_⟩
  intro t cat msg sev
  refine ⟨fun h => ?_, fun h1 h2 => ?_, fun h1 h2 => ?_⟩
  · simp [logIssue, h]
  · simp [logIssue, h1, h2]
  · simp [logIssue, h1, h2]

/-- Witness for C1 at concrete inputs. -/
theorem claim_C1_witness :
    totalFindings (runLog emptyReport
        [⟨"dependencies", "m1", "error", 0⟩, ⟨"templates", "m2", "info", 1⟩])
      = totalFindings emptyReport + 2
    ∧ (logIssue 0 emptyReport "dependencies" "m1" "error").issues
        = emptyReport.issues ++ [⟨"dependencies", "m1", "error", 0⟩]
    ∧ (logIssue 0 emptyReport "dependencies" "m1" "error").warnings = emptyReport.warnings := by
  refine ⟨(claim_C1 emptyReport _).1, ?_, ?_⟩
  · exact (((claim_C1 emptyReport []).2 0 "dependencies" "m1" "error").1 rfl).1
  · exact (((claim_C1 emptyReport []).2 0 "dependencies" "m1" "error").1 rfl).2.1

/-! ## Claim C10 -/

/-- C10: for any severity string other than error and warning
(including misspellings outside the documented enum), `log_issue` appends
the Finding to the info sequence, leaves the other two sequences
untouched, and never drops the Finding (the total grows by one). -/
theorem claim_C10 (t : Nat) (r : Report) (cat msg sev : String)
    (h1 : sev ≠ "error") (h2 : sev ≠ "warning") :
    (logIssue t r cat msg sev).info = r.info ++ [⟨cat, msg, sev, t⟩]
    ∧ (logIssue t r cat msg sev).issues = r.issues
    ∧ (logIssue t r cat msg sev).warnings = r.warnings
    ∧ totalFindings (logIssue t r cat msg sev) = totalFindings r + 1 := by
  refine ⟨?_, ?_, ?_, totalFindings_logIssue t r cat msg sev⟩ <;> simp [logIssue, h1, h2]

/-- Witness for C10 at a misspelled severity string. -/
theorem claim_C10_witness :
    (logIssue 0 emptyReport "app_config" "m" "eror").info
        = emptyReport.info ++ [⟨"app_config", "m", "eror", 0⟩]
    ∧ (logIssue 0 emptyReport "app_config" "m" "eror").issues = emptyReport.issues
    ∧ (logIssue 0 emptyReport "app_config" "m" "eror").warnings = emptyReport.warnings
    ∧ totalFindings (logIssue 0 emptyReport "app_config" "m" "eror")
        = totalFindings emptyReport + 1 :=
  claim_C10 0 emptyReport "app_config" "m" "eror" (by decide) (by decide)

/-! ## Helper lemmas about substring containment -/

theorem isPrefixOf_iff_exists : ∀ (a b : List Char), a.isPrefixOf b = true ↔ ∃ t, b = a ++ t := by
  intro a
  induction a with
  | nil => intro b; simp [List.isPrefixOf]
  | cons x xs ih =>
    intro b
    cases b with
    | nil => simp [List.isPrefixOf]
    | cons y ys =>
      simp only [List.isPrefixOf, Bool.and_eq_true, beq_iff_eq, ih ys]
      constructor
      · rintro ⟨rfl, t, rfl⟩
        exact ⟨t, rfl⟩
      · rintro ⟨t, h⟩
        injection h with h1 h2
        exact ⟨h1.symm, t, h2⟩

theorem occursIn_iff_exists (needle : List Char) :
    ∀ hay, occursIn needle hay = true ↔ ∃ pre suf, hay = pre ++ needle ++ suf := by
  intro hay
  induction hay with
  | nil =>
    simp only [occursIn, List.isEmpty_iff]
    constructor
    · rintro rfl
      exact ⟨[], [], rfl⟩
    · rintro ⟨pre, suf, h⟩
      rcases List.append_eq_nil.mp h.symm with ⟨h1, h2⟩
      rcases List.append_eq_nil.mp h1 with ⟨h3, h4⟩
      exact h4
  | cons c t ih =>
    simp only [occursIn, Bool.or_eq_true, ih, isPrefixOf_iff_exists]
    constructor
    · rintro (⟨s, hs⟩ | ⟨pre, suf, rfl⟩)
      · exact ⟨[], s, by simpa using hs⟩
      · exact ⟨c :: pre, suf, rfl⟩
    · rintro ⟨pre, suf, h⟩
      cases pre with
      | nil =>
        left
        exact ⟨suf, by simpa using h⟩
      | cons p ps =>
        right
        injection h with h1 h2
        exact ⟨ps, suf, h2⟩

theorem occursIn_trans {a b c : List Char} (h1 : occursIn a b = true)
    (h2 : occursIn b c = true) : occursIn a c = true := by
  rw [occursIn_iff_exists] at h1 h2 ⊢
  obtain ⟨p1, s1, rfl⟩ := h1
  obtain ⟨p2, s2, rfl⟩ := h2
  exact ⟨p2 ++ p1, s1 ++ s2, by simp⟩

theorem containsSubstr_trans {a b c : String} (h1 : containsSubstr a b = true)
    (h2 : containsSubstr b c = true) : containsSubstr a c = true :=
  occursIn_trans h1 h2

/-! ## Helper lemmas about the checks -/

theorem foldl_mem_warnings {α : Type} (f : Report → α → Report)
    (hf : ∀ (r : Report) (x : α) (w : Finding), w ∈ r.warnings → w ∈ (f r x).warnings)
    (l : List α) : ∀ (r : Report) (w : Finding), w ∈ r.warnings → w ∈ (l.foldl f r).warnings := by
  induction l with
  | nil => intro r w hw; exact hw
  | cons x xs ih => intro r w hw; exact ih (f r x) w (hf r x w hw)

theorem fsExpectedStep_mem_warnings (env : Env) (r : Report) (item : String × String)
    (w : Finding) (h : w ∈ r.warnings) : w ∈ (fsExpectedStep env r item).warnings := by
  simp only [fsExpectedStep]
  split
  · exact h
  · exact logIssue_mem_warnings _ _ _ _ _ _ h

theorem fsWalkStep_mem_warnings (r : Report) (e : WalkEntry)
    (w : Finding) (h : w ∈ r.warnings) : w ∈ (fsWalkStep r e).warnings := by
  simp only [fsWalkStep]
  split
  · exact h
  · exact h

theorem runChecks_append (xs ys : List Check) : ∀ r : Report,
    runChecks (xs ++ ys) r = match runChecks xs r with
      | (r1, none) => runChecks ys r1
      | (r1, some f) => (r1, some f) := by
  induction xs with
  | nil => intro r; simp [runChecks]
  | cons c cs ih =>
    intro r
    simp only [List.cons_append, runChecks]
    cases c r with
    | mk r1 of =>
      cases of with
      | none => simp [ih r1]
      | some f => simp

/-! ## Claim C2 -/

/-- C2: if a step of the diagnostic sequence fails with an uncaught
failure (interrupt included) after `good` steps succeeded,
`run_full_diagnostic` does not propagate the failure: it returns exactly
the report accumulated at the failure point, so every Finding recorded
before the failure is still in the returned report. -/
theorem claim_C2 (good : List Check) (bad : Check) (rest : List Check)
    (r r1 r2 : Report) (f : CheckFailure) (di dw dn : List Finding)
    (hgood : runChecks good r = (r1, none))
    (hbad : bad r1 = (r2, some f))
    (hi : r2.issues = r1.issues ++ di)
    (hw : r2.warnings = r1.warnings ++ dw)
    (hn : r2.info = r1.info ++ dn) :
    runFullDiagnostic (good ++ bad :: rest) r = r2
    ∧ (∀ w ∈ r1.issues, w ∈ (runFullDiagnostic (good ++ bad :: rest) r).issues)
    ∧ (∀ w ∈ r1.warnings, w ∈ (runFullDiagnostic (good ++ bad :: rest) r).warnings)
    ∧ (∀ w ∈ r1.info, w ∈ (runFullDiagnostic (good ++ bad :: rest) r).info) := by
  have hrun : runChecks (good ++ bad :: rest) r = (r2, some f) := by
    rw [runChecks_append, hgood]
    simp [runChecks, hbad]
  have hfd : runFullDiagnostic (good ++ bad :: rest) r = r2 := by
    simp [runFullDiagnostic, hrun]
  refine ⟨hfd, ?_, ?_, ?_⟩ <;> intro w hw' <;> rw [hfd]
  · rw [hi]; exact List.mem_append_left _ hw'
  · rw [hw]; exact List.mem_append_left _ hw'
  · rw [hn]; exact List.mem_append_left _ hw'

/-- Witness for C2: a concrete three-step sequence whose middle step is
interrupted; the returned report is the one accumulated so far. -/
theorem claim_C2_witness :
    runFullDiagnostic [c2GoodCheck, c2BadCheck, c2RestCheck] emptyReport = c2R2 :=
  (claim_C2 [c2GoodCheck] c2BadCheck [c2RestCheck] emptyReport c2R1 c2R2 .interrupt
    [] [⟨"dependencies", "requirements.txt not found", "warning", 1⟩] []
    (by decide) (by decide) (by decide) (by decide) (by decide)).1

/-! ## Claim C9 (corrected) -/

/-- Counterexample to C9 as stated: after the dynamic-introspection
sub-operation the module search path is NOT restored to its prior value
(the source has no removal matching `sys.path.insert`). -/
theorem claim_C9_cex :
    (analyzeAppImports envC9 (emptyReport, ["/usr/lib/python3"])).2 ≠ ["/usr/lib/python3"] := by
  decide

/-- C9 amended: `analyze_app_imports` registers the base directory on the
module search path permanently, not temporarily: on every exit path
(success, missing app attribute, import or execution error, setup
failure, absent spec) the search path equals the base directory prepended
to its prior value, and is never restored. -/
theorem claim_C9 (env : Env) (st : Report × List String) :
    (analyzeAppImports env st).2 = env.basePath :: st.2 := by
  cases st with
  | mk r sp => cases h : env.importOutcome <;> simp [analyzeAppImports, h]

/-! ## Claim C4 (corrected) -/

/-- Counterexample to C4 as stated: on the message
`"Missing packages: app.py"` two of the four predicates hold (entry-file
and dependencies), so the predicates are not mutually exclusive over
arbitrary message strings. -/
theorem claim_C4_cex : predsHolding "Missing packages: app.py" = 2 := by decide

/-- C4 amended: the four predicates are not mutually exclusive, but
`generate_solutions` applies them in a fixed order with first-match-wins
(an if/elif chain), so every message still yields at most one Solution,
the one of the first matching predicate, and each error Finding
contributes at most one Solution. -/
theorem claim_C4 (m : String) :
    (predEntryFile m = true → solutionForMessage m = some (entryFileSolution m))
    ∧ (predEntryFile m = false → predSecretKey m = true →
        solutionForMessage m = some (secretKeySolution m))
    ∧ (predEntryFile m = false → predSecretKey m = false → predMissingPackages m = true →
        solutionForMessage m = some (missingPackagesSolution m))
    ∧ (predEntryFile m = false → predSecretKey m = false → predMissingPackages m = false →
        predTemplatesDir m = true → solutionForMessage m = some (templatesDirSolution m))
    ∧ (predEntryFile m = false → predSecretKey m = false → predMissingPackages m = false →
        predTemplatesDir m = false → solutionForMessage m = none)
    ∧ (∀ r : Report, (generateSolutions r).solutions.length ≤ r.issues.length) := by
  refine ⟨?_, ?_, ?_, ?_, ?_, ?_⟩
  · intro h1; simp [solutionForMessage, h1]
  · intro h1 h2; simp [solutionForMessage, h1, h2]
  · intro h1 h2 h3; simp [solutionForMessage, h1, h2, h3]
  · intro h1 h2 h3 h4; simp [solutionForMessage, h1, h2, h3, h4]
  · intro h1 h2 h3 h4; simp [solutionForMessage, h1, h2, h3, h4]
  · intro r
    simp only [generateSolutions]
    exact List.length_filterMap_le _ _

/-- Witness for C4 at concrete messages: the double-match message takes
the first rule, a templates message takes the fourth. -/
theorem claim_C4_witness :
    solutionForMessage "Missing packages: app.py"
        = some (entryFileSolution "Missing packages: app.py")
    ∧ solutionForMessage "Templates directory not found"
        = some (templatesDirSolution "Templates directory not found") :=
  ⟨(claim_C4 _).1 (by decide),
   (claim_C4 _).2.2.2.1 (by decide) (by decide) (by decide) (by decide)⟩

/-! ## Claim C3 (corrected) -/

/-- Counterexample to C3 as stated: a report whose only error Finding has
a message containing Missing packages: foo, bar but whose package names
make the message also contain app.py; the derived Solution is the
entry-file one, whose `command` is absent rather than the package-install
command, so the outcome is not independent of the package names. -/
theorem claim_C3_cex :
    containsSubstr "Missing packages: foo, bar" "Missing packages: foo, bar, app.py" = true
    ∧ (generateSolutions c3CexReport).solutions.map Solution.command = [none] := by
  constructor
  · decide
  · decide

/-- C3 amended: for every report whose only error Finding has a message
containing Missing packages: foo, bar and containing neither app.py nor
SECRET_KEY (package names triggering an earlier rule of the chain are the
exception the counterexample forces), the derivation produces exactly one
Solution and its `command` is the fixed package-install command. -/
theorem claim_C3 (cat m : String) (t : Nat) (r : Report)
    (hr : r.issues = [⟨cat, m, "error", t⟩])
    (h1 : containsSubstr "Missing packages: foo, bar" m = true)
    (h2 : containsSubstr "app.py" m = false)
    (h3 : containsSubstr "SECRET_KEY" m = false) :
    (generateSolutions r).solutions = [missingPackagesSolution m]
    ∧ (missingPackagesSolution m).command = some "pip install -r requirements.txt" := by
  have hmp : containsSubstr "Missing packages" m = true :=
    containsSubstr_trans (by decide) h1
  constructor
  · simp [generateSolutions, hr, solutionForMessage, predEntryFile, predSecretKey,
      predMissingPackages, h2, h3, hmp]
  · rfl

/-- Witness for C3 at a concrete report whose message is exactly the
substring named by the claim. -/
theorem claim_C3_witness :
    (generateSolutions
        { emptyReport with issues := [⟨"dependencies", "Missing packages: foo, bar", "error", 0⟩] }).solutions
      = [missingPackagesSolution "Missing packages: foo, bar"]
    ∧ (missingPackagesSolution "Missing packages: foo, bar").command
      = some "pip install -r requirements.txt" :=
  claim_C3 "dependencies" "Missing packages: foo, bar" 0 _ rfl (by decide) (by decide) (by decide)

/-! ## Claim C5 -/

theorem analyzeRequirements_missing (env : Env) (r : Report) (content installed : String)
    (h1 : env.pathExists "requirements.txt" = true)
    (h2 : env.readFile "requirements.txt" = Except.ok content)
    (h3 : env.pipList = Except.ok installed) :
    (analyzeRequirements env r).dependencies.missing_packages
      = some (missingPackages (splitLines (trimStr content)) installed) := by
  simp only [analyzeRequirements, h1, h2, h3, Bool.not_eq_true, not_true, if_false,
    Bool.true_eq_false, ite_false]
  split <;> rw [logIssue_dependencies]

/-- C5: the bare package name of the manifest line `flask==2.0.0` is
`flask`; whenever `flask` occurs case-insensitively in the installed
listing it is not an element of the recorded `missing_packages`; a
requirement `nonexistentpkg123` occurring nowhere in the listing is an
element of `missing_packages`. -/
theorem claim_C5 :
    parsePackageName "flask==2.0.0" = "flask"
    ∧ (∀ (env : Env) (r : Report) (installed : String) (m : List String),
        env.pathExists "requirements.txt" = true →
        env.readFile "requirements.txt" = Except.ok "flask==2.0.0" →
        env.pipList = Except.ok installed →
        containsSubstr (lowerStr "flask") (lowerStr installed) = true →
        (analyzeRequirements env r).dependencies.missing_packages = some m →
        "flask" ∉ m)
    ∧ (∀ (env : Env) (r : Report) (installed : String) (m : List String),
        env.pathExists "requirements.txt" = true →
        env.readFile "requirements.txt" = Except.ok "nonexistentpkg123" →
        env.pipList = Except.ok installed →
        containsSubstr (lowerStr "nonexistentpkg123") (lowerStr installed) = false →
        (analyzeRequirements env r).dependencies.missing_packages = some m →
        "nonexistentpkg123" ∈ m) := by
  refine ⟨by decide, ?_, ?_⟩
  · intro env r installed m h1 h2 h3 h4 hm
    rw [analyzeRequirements_missing env r "flask==2.0.0" installed h1 h2 h3] at hm
    have hreq : splitLines (trimStr "flask==2.0.0") = ["flask==2.0.0"] := by decide
    have hparse : parsePackageName "flask==2.0.0" = "flask" := by decide
    have hinner : containsSubstr (lowerStr (parsePackageName "flask==2.0.0"))
        (lowerStr installed) = true := by
      rw [hparse]; exact h4
    have hmiss : missingPackages ["flask==2.0.0"] installed = [] := by
      simp only [missingPackages, List.filterMap_cons, List.filterMap_nil]
      rw [if_pos (by decide), if_neg (by simp [hinner])]
    rw [hreq, hmiss] at hm
    injection hm with hm'
    rw [← hm']
    simp
  · intro env r installed m h1 h2 h3 h4 hm
    rw [analyzeRequirements_missing env r "nonexistentpkg123" installed h1 h2 h3] at hm
    have hreq : splitLines (trimStr "nonexistentpkg123") = ["nonexistentpkg123"] := by decide
    have hparse : parsePackageName "nonexistentpkg123" = "nonexistentpkg123" := by decide
    have hinner : containsSubstr (lowerStr (parsePackageName "nonexistentpkg123"))
        (lowerStr installed) = false := by
      rw [hparse]; exact h4
    have hmiss : missingPackages ["nonexistentpkg123"] installed = ["nonexistentpkg123"] := by
      simp only [missingPackages, List.filterMap_cons, List.filterMap_nil]
      rw [if_pos (by decide), if_pos (by simp [hinner]), hparse]
    rw [hreq, hmiss] at hm
    injection hm with hm'
    rw [← hm']
    simp

/-- Witness for C5 at concrete manifests and a concrete `pip list`
output. -/
theorem claim_C5_witness :
    "flask" ∉ ([] : List String) ∧ "nonexistentpkg123" ∈ ["nonexistentpkg123"] := by
  constructor
  · exact claim_C5.2.1 envC5flask emptyReport
      "Package    Version\n---------- -------\nFlask      2.0.0" [] rfl rfl rfl
      (by decide) (by decide)
  · exact claim_C5.2.2 envC5missing emptyReport
      "Package    Version\n---------- -------\nFlask      2.0.0" ["nonexistentpkg123"] rfl rfl rfl
      (by decide) (by decide)

/-! ## Claim C6 -/

/-- C6: when `app.py` does not exist, the file-structure check records a
warning Finding for its absence, and `analyze_app_py` returns immediately
after recording exactly one error Finding: no configuration facts are
written and the dynamic-import sub-operation is never reached (the module
search path component of the state is untouched). -/
theorem claim_C6 (env : Env) (r rA : Report) (sysPath : List String)
    (h : env.pathExists "app.py" = false) :
    (⟨"file_structure", "Missing Main application file: app.py", "warning", env.now⟩ : Finding)
        ∈ (analyzeFileStructure env r).warnings
    ∧ analyzeAppPy env (rA, sysPath)
        = (logIssue env.now rA "app_config" "app.py not found - this is critical!" "error", sysPath)
    ∧ (analyzeAppPy env (rA, sysPath)).1.issues
        = rA.issues ++ [⟨"app_config", "app.py not found - this is critical!", "error", env.now⟩]
    ∧ (analyzeAppPy env (rA, sysPath)).1.warnings = rA.warnings
    ∧ (analyzeAppPy env (rA, sysPath)).1.info = rA.info
    ∧ (analyzeAppPy env (rA, sysPath)).1.configurations = rA.configurations := by
  have h0 : (⟨"file_structure", "Missing Main application file: app.py", "warning", env.now⟩ : Finding)
      ∈ (fsExpectedStep env r ("app.py", "Main application file")).warnings := by
    simp [fsExpectedStep, h, logIssue]
  have hstep : expectedFiles.foldl (fsExpectedStep env) r
      = [("requirements.txt", "Python dependencies"), ("wsgi.py", "WSGI configuration"),
         ("templates/", "HTML templates directory"), ("static/", "Static files directory"),
         ("instance/", "Instance-specific files")].foldl (fsExpectedStep env)
          (fsExpectedStep env r ("app.py", "Main application file")) := rfl
  have h1 : (⟨"file_structure", "Missing Main application file: app.py", "warning", env.now⟩ : Finding)
      ∈ (expectedFiles.foldl (fsExpectedStep env) r).warnings := by
    rw [hstep]
    exact foldl_mem_warnings _ (fun r' x w hw => fsExpectedStep_mem_warnings env r' x w hw) _ _ _ h0
  have hmem : (⟨"file_structure", "Missing Main application file: app.py", "warning", env.now⟩ : Finding)
      ∈ (analyzeFileStructure env r).warnings :=
    foldl_mem_warnings _ (fun r' x w hw => fsWalkStep_mem_warnings r' x w hw) _ _ _ h1
  have hpy : analyzeAppPy env (rA, sysPath)
      = (logIssue env.now rA "app_config" "app.py not found - this is critical!" "error", sysPath) := by
    simp [analyzeAppPy, h]
  refine ⟨hmem, hpy, ?_, ?_, ?_, ?_⟩ <;> rw [hpy]
  · simp [logIssue]
  · simp [logIssue]
  · simp [logIssue]
  · exact logIssue_configurations _ _ _ _ _

/-- Witness for C6 at a concrete empty project directory. -/
theorem claim_C6_witness :
    (⟨"file_structure", "Missing Main application file: app.py", "warning", 0⟩ : Finding)
        ∈ (analyzeFileStructure envC6 emptyReport).warnings
    ∧ analyzeAppPy envC6 (emptyReport, [])
        = (logIssue 0 emptyReport "app_config" "app.py not found - this is critical!" "error", []) := by
  have h := claim_C6 envC6 emptyReport emptyReport [] rfl
  exact ⟨h.1, h.2.1⟩

/-! ## Claim C7 -/

theorem dbStep_spec (env : Env) (r : Report) (p : String) :
    (dbStep env r p).database_status = r.database_status ++ [(p, dbStatusFor env p)]
    ∧ (dbStep env r p).info
        = r.info ++ (if (env.openDb p).isOk then [dbFindingFor env p] else [])
    ∧ (dbStep env r p).issues
        = r.issues ++ (if (env.openDb p).isOk then [] else [dbFindingFor env p])
    ∧ (dbStep env r p).warnings = r.warnings := by
  cases hdb : env.openDb p with
  | ok tables =>
    refine ⟨?_, ?_, ?_, ?_⟩ <;>
      simp [dbStep, hdb, dbStatusFor, dbFindingFor, logIssue, Except.isOk, Except.toBool]
  | error e =>
    refine ⟨?_, ?_, ?_, ?_⟩ <;>
      simp [dbStep, hdb, dbStatusFor, dbFindingFor, logIssue, Except.isOk, Except.toBool]

theorem dbFoldSpec (env : Env) (l : List String) : ∀ r : Report,
    (l.foldl (dbStep env) r).database_status
        = r.database_status ++ l.map (fun q => (q, dbStatusFor env q))
    ∧ (l.foldl (dbStep env) r).info
        = r.info ++ ((l.filter fun q => (env.openDb q).isOk).map (dbFindingFor env))
    ∧ (l.foldl (dbStep env) r).issues
        = r.issues ++ ((l.filter fun q => !(env.openDb q).isOk).map (dbFindingFor env))
    ∧ (l.foldl (dbStep env) r).warnings = r.warnings := by
  induction l with
  | nil => intro r; simp
  | cons p ps ih =>
    intro r
    obtain ⟨h1, h2, h3, h4⟩ := ih (dbStep env r p)
    obtain ⟨s1, s2, s3, s4⟩ := dbStep_spec env r p
    simp only [List.foldl_cons, List.map_cons, List.filter_cons]
    refine ⟨?_, ?_, ?_, ?_⟩
    · rw [h1, s1]; simp
    · rw [h2, s2]
      cases hok : (env.openDb p).isOk <;> simp [hok]
    · rw [h3, s3]
      cases hok : (env.openDb p).isOk <;> simp [hok]
    · rw [h4, s4]

/-- C7: the database check processes every found store file (no failure
aborts the loop), recording per file exactly the status determined by the
open/enumerate outcome and exactly one Finding (info on success, error on
failure, never a warning); for a store with tables `users` (3 rows) and
`courses` (0 rows), the recorded status is accessible with those
per-table counts. -/
theorem claim_C7 (env : Env) (r : Report) (p : String) :
    (analyzeDatabase env r).database_status
        = r.database_status ++ env.dbFiles.map (fun q => (q, dbStatusFor env q))
    ∧ (analyzeDatabase env r).info
        = r.info ++ ((env.dbFiles.filter fun q => (env.openDb q).isOk).map (dbFindingFor env))
    ∧ (analyzeDatabase env r).issues
        = r.issues ++ ((env.dbFiles.filter fun q => !(env.openDb q).isOk).map (dbFindingFor env))
    ∧ (analyzeDatabase env r).warnings = r.warnings
    ∧ (env.openDb p = Except.ok [("users", 3), ("courses", 0)] →
        dbStatusFor env p = { dbType := "SQLite", accessible := true,
                              tables := some [("users", 3), ("courses", 0)] }
        ∧ (p ∈ env.dbFiles →
            ((p, { dbType := "SQLite", accessible := true,
                   tables := some [("users", 3), ("courses", 0)] }) : String × DbStatus)
              ∈ (analyzeDatabase env r).database_status)) := by
  obtain ⟨h1, h2, h3, h4⟩ := dbFoldSpec env env.dbFiles r
  refine ⟨h1, h2, h3, h4, ?_⟩
  intro hdb
  have hst : dbStatusFor env p = { dbType := "SQLite", accessible := true,
                                   tables := some [("users", 3), ("courses", 0)] } := by
    simp [dbStatusFor, hdb]
  refine ⟨hst, fun hp => ?_⟩
  show _ ∈ (env.dbFiles.foldl (dbStep env) r).database_status
  rw [(dbFoldSpec env env.dbFiles r).1]
  apply List.mem_append_right
  rw [← hst]
  exact List.mem_map_of_mem _ hp

/-- Witness for C7 at a directory with one healthy store. -/
theorem claim_C7_witness :
    (analyzeDatabase envC7 emptyReport).database_status
        = emptyReport.database_status ++ [("instance/app.db",
            { dbType := "SQLite", accessible := true,
              tables := some [("users", 3), ("courses", 0)] })]
    ∧ ("instance/app.db", ({ dbType := "SQLite", accessible := true,
                             tables := some [("users", 3), ("courses", 0)] } : DbStatus))
        ∈ (analyzeDatabase envC7 emptyReport).database_status := by
  have h := claim_C7 envC7 emptyReport "instance/app.db"
  constructor
  · exact h.1.trans (by decide)
  · exact (h.2.2.2.2 rfl).2 (by decide)

/-! ## Claim C8 -/

theorem analyzeTemplates_present (env : Env) (r : Report)
    (hdir : env.pathExists "templates" = true) (hlen : env.templateFiles.length ≠ 0) :
    analyzeTemplates env r = env.templateFiles.foldl (templateStep env)
      (logIssue env.now
        { r with configurations := r.configurations ++
            [("templates", ConfigVal.templates true env.templateFiles.length env.templateFiles)] }
        "templates" ("Found " ++ toString env.templateFiles.length ++ " template files") "info") := by
  simp [analyzeTemplates, hdir, hlen]

/-- C8: if the templates directory is absent the check records exactly
one error Finding and returns; otherwise, for a directory holding exactly
one file with a template-engine marker and one file with neither marker,
exactly one warning Finding is recorded (for the marker-less file) and
the recorded `template_count` is 2. -/
theorem claim_C8 (env : Env) (r : Report) :
    (env.pathExists "templates" = false →
      analyzeTemplates env r
          = logIssue env.now r "templates" "Templates directory not found" "error"
      ∧ (analyzeTemplates env r).issues
          = r.issues ++ [⟨"templates", "Templates directory not found", "error", env.now⟩]
      ∧ (analyzeTemplates env r).warnings = r.warnings
      ∧ (analyzeTemplates env r).info = r.info)
    ∧ (∀ (f1 f2 content1 content2 : String),
        env.pathExists "templates" = true →
        env.templateFiles = [f1, f2] →
        env.readFile f1 = Except.ok content1 →
        env.readFile f2 = Except.ok content2 →
        (containsSubstr "\x7b\x7b" content1 || containsSubstr "\x7b%" content1) = true →
        containsSubstr "\x7b\x7b" content2 = false →
        containsSubstr "\x7b%" content2 = false →
        (analyzeTemplates env r).warnings = r.warnings
            ++ [⟨"templates", baseName f2 ++ " might not be a Flask template", "warning", env.now⟩]
        ∧ (analyzeTemplates env r).configurations
            = r.configurations ++ [("templates", ConfigVal.templates true 2 [f1, f2])]) := by
  constructor
  · intro h
    have ha : analyzeTemplates env r
        = logIssue env.now r "templates" "Templates directory not found" "error" := by
      simp [analyzeTemplates, h]
    refine ⟨ha, ?_, ?_, ?_⟩ <;> rw [ha] <;> simp [logIssue]
  · intro f1 f2 content1 content2 hdir hfiles hr1 hr2 hm1 hm2a hm2b
    have hsf1 : ∀ acc : Report, templateStep env acc f1 = acc := by
      intro acc
      simp only [templateStep, hr1]
      rw [if_neg]
      rintro ⟨hna, hnb⟩
      cases hA : containsSubstr "\x7b\x7b" content1 with
      | true => exact hna hA
      | false =>
        rw [hA] at hm1
        simp only [Bool.false_or] at hm1
        exact hnb hm1
    have hsf2 : ∀ acc : Report, templateStep env acc f2
        = logIssue env.now acc "templates" (baseName f2 ++ " might not be a Flask template") "warning" := by
      intro acc
      simp only [templateStep, hr2]
      rw [if_pos]
      exact ⟨by simp [hm2a], by simp [hm2b]⟩
    have hlen : env.templateFiles.length ≠ 0 := by rw [hfiles]; simp
    have hred := analyzeTemplates_present env r hdir hlen
    constructor
    · rw [hred, hfiles]
      simp only [List.foldl_cons, List.foldl_nil]
      rw [hsf1, hsf2]
      simp [logIssue]
    · rw [hred, hfiles]
      simp only [List.foldl_cons, List.foldl_nil]
      rw [hsf1, hsf2, logIssue_configurations, logIssue_configurations]
      simp

/-- Witness for C8: a concrete templates directory with one real template
and one marker-less file, and a concrete directory without templates. -/
theorem claim_C8_witness :
    ((analyzeTemplates envC8 emptyReport).warnings = emptyReport.warnings
        ++ [⟨"templates", baseName "templates/plain.html" ++ " might not be a Flask template",
             "warning", 0⟩]
      ∧ (analyzeTemplates envC8 emptyReport).configurations
        = emptyReport.configurations ++ [("templates",
            ConfigVal.templates true 2 ["templates/index.html", "templates/plain.html"])])
    ∧ analyzeTemplates envC8absent emptyReport
        = logIssue 0 emptyReport "templates" "Templates directory not found" "error" := by
  constructor
  · exact (claim_C8 envC8 emptyReport).2 "templates/index.html" "templates/plain.html"
      "<h1>\x7b\x7b name \x7d\x7d</h1>" "<h1>hello</h1>"
      rfl rfl rfl rfl (by decide) (by decide) (by decide)
  · exact ((claim_C8 envC8absent emptyReport).1 rfl).1
